import Mathlib

/-!
Verification of `src/utils/settings.py` (configuration management module of
the web-scraper project) against its natural-language specification.

The module defines a dataclass `ScraperConfig` holding the schema defaults and
a class `ConfigManager` whose methods (`load_from_file`, `save_to_file`,
`load_from_dict`, `_apply_environment_overrides`, `get`, `set`, `update`,
`reload`, `switch_profile`, ...) all have `pass` bodies: each returns `None`
and performs no state change.  We embed the module faithfully: Python state
becomes explicit state passing, the filesystem and the process environment are
explicit association lists, a method returning `None` returns `PyVal.none`.

Module import itself is modelled as Python name resolution of the class-body
annotation expressions: `ConfigManager.validate` is annotated `-> List[str]`
while the `typing` import only brings in `Dict, Any, Optional, Union`, so the
`class ConfigManager` statement raises `NameError` and the import fails.
-/

set_option linter.unusedVariables false

/-- An untyped Python value, as far as this module manipulates them. -/
inductive PyVal where
  | none
  | bool (b : Bool)
  | int (n : Int)
  | float (q : ℚ)
  | str (s : String)
  deriving DecidableEq, Repr

/-- The `ScraperConfig` dataclass of `settings.py`, with its field defaults
(`__post_init__` calls `_validate_config`, whose body is `pass`, so
construction with defaults just yields these values). -/
structure ScraperConfig where
  request_timeout : Int := 30
  max_retries : Int := 3
  retry_delay : ℚ := 1
  user_agent : String := "WebScraper/1.0"
  requests_per_second : ℚ := 1
  concurrent_requests : Int := 1
  respect_robots_txt : Bool := true
  output_format : String := "json"
  output_directory : String := "./data"
  filename_template : String := "\x7bdomain\x7d_\x7btimestamp\x7d"
  htmlParser : String := "lxml"
  encoding : String := "utf-8"
  enable_cookies : Bool := true
  session_persistence : Bool := true
  log_level : String := "INFO"
  log_file : Option String := Option.none
  enable_request_logging : Bool := false
  enable_caching : Bool := true
  cache_directory : String := "./cache"
  enable_compression : Bool := true
  custom_headers : List (String × String) := []
  proxy_settings : List (String × String) := []
  deriving DecidableEq, Repr

/-- The process filesystem, as a path-to-contents association list. -/
abbrev FileSystem := List (String × String)

/-- The process environment, as a name-to-value association list. -/
abbrev Env := List (String × String)

/-- `os.path.exists` over the modelled filesystem. -/
def os_path_exists (fs : FileSystem) (p : String) : Bool :=
  (fs.lookup p).isSome

/-- The mutable state of a `ConfigManager` instance: the attributes set by
`__init__` (`self.config_file`, `self.config`, `self.env_prefix`,
`self._config_cache`). -/
structure ConfigManager where
  config_file : Option String
  config : ScraperConfig
  env_prefix : String
  config_cache : List (String × PyVal)
  deriving DecidableEq, Repr

/-- `ConfigManager.load_from_file(self, filepath)`: the body is
`pass`, so the state is unchanged and `None` is returned; the filesystem is in
scope but never consulted. -/
def ConfigManager.load_from_file (fs : FileSystem) (self : ConfigManager)
    (filepath : String) : ConfigManager × PyVal :=
  (self, PyVal.none)

/-- `ConfigManager.save_to_file(self, filepath, format)`: the body is `pass`,
so nothing is written to the filesystem, the state is unchanged and `None` is
returned. -/
def ConfigManager.save_to_file (fs : FileSystem) (self : ConfigManager)
    (filepath : String) (format : String) : FileSystem × ConfigManager × PyVal :=
  (fs, self, PyVal.none)

/-- `ConfigManager.load_from_dict(self, config_dict)`: body is `pass`. -/
def ConfigManager.load_from_dict (self : ConfigManager)
    (config_dict : List (String × PyVal)) : ConfigManager × PyVal :=
  (self, PyVal.none)

/-- `ConfigManager._apply_environment_overrides(self)`: body is `pass`; the
environment is in scope but never scanned. -/
def ConfigManager.apply_environment_overrides (self : ConfigManager)
    (env : Env) : ConfigManager × PyVal :=
  (self, PyVal.none)

/-- `ConfigManager.get(self, key, default=None)`: the body is `pass`, so the
call returns `None` whatever the key, the stored config, or the supplied
default. -/
def ConfigManager.get (self : ConfigManager) (key : String)
    (default : PyVal) : PyVal :=
  PyVal.none

/-- `ConfigManager.set(self, key, value)`: body is `pass`. -/
def ConfigManager.set (self : ConfigManager) (key : String)
    (value : PyVal) : ConfigManager × PyVal :=
  (self, PyVal.none)

/-- `ConfigManager.update(self, updates)`: the body is `pass`, so the state is
unchanged, `None` is returned, and no violation is raised or reported. -/
def ConfigManager.update (self : ConfigManager)
    (updates : List (String × PyVal)) : ConfigManager × PyVal :=
  (self, PyVal.none)

/-- `ConfigManager.reload(self)`: body is `pass`; the filesystem and the
environment are in scope but never re-read. -/
def ConfigManager.reload (fs : FileSystem) (env : Env)
    (self : ConfigManager) : ConfigManager × PyVal :=
  (self, PyVal.none)

/-- `ConfigManager.switch_profile(self, profile_name)`: body is `pass`. -/
def ConfigManager.switch_profile (self : ConfigManager)
    (profile_name : String) : ConfigManager × PyVal :=
  (self, PyVal.none)

/-- `ConfigManager.__init__(self, config_file=None)`: sets the four
attributes, then `if config_file and os.path.exists(config_file):
self.load_from_file(config_file)`, then `self._apply_environment_overrides()`.
`config_file` is truthy when it is a non-`None`, non-empty string. -/
def ConfigManager.init (fs : FileSystem) (env : Env)
    (config_file : Option String) : ConfigManager :=
  let self : ConfigManager :=
    { config_file := config_file, config := {}, env_prefix := "SCRAPER_",
      config_cache := [] }
  let self :=
    match config_file with
    | some f =>
        if (f != "") && os_path_exists fs f then
          (ConfigManager.load_from_file fs self f).1
        else self
    | Option.none => self
  (ConfigManager.apply_environment_overrides self env).1

/-!
Model of module import.  Executing `settings.py` runs the `import` statements,
then the `class ScraperConfig` statement, then the `class ConfigManager`
statement.  Executing a `class` statement evaluates, in textual order, every
annotation and default expression of the class body; each name occurring in
such an expression is looked up in the enclosing scopes, and the first lookup
that fails raises `NameError`, aborting the class statement and the import.
We record, per class body, the names looked up, in evaluation order.
-/

/-- The names bound by `from typing import Dict, Any, Optional, Union`. -/
def typingImportedNames : List String := ["Dict", "Any", "Optional", "Union"]

/-- All names bound at module scope by the import statements of
`settings.py` (`os`, `yaml`, `json`, the `typing` names, `dataclass`,
`field`, `Path`). -/
def namesFromImports : List String :=
  ["os", "yaml", "json"] ++ typingImportedNames ++ ["dataclass", "field", "Path"]

/-- Python builtins referenced by the module's annotations and defaults. -/
def builtinNames : List String :=
  ["int", "float", "str", "bool", "dict", "list", "callable"]

/-- Names looked up while executing the `ScraperConfig` class statement, in
order: the `dataclass` decorator, then each field annotation, then the
`field(default_factory=dict)` default expressions. -/
def scraperConfigBodyNames : List String :=
  ["dataclass",
   "int", "int", "float", "str",
   "float", "int", "bool",
   "str", "str", "str",
   "str", "str",
   "bool", "bool",
   "str", "Optional", "str", "bool",
   "bool", "str", "bool",
   "Dict", "str", "str", "field", "dict",
   "Dict", "str", "str", "field", "dict"]

/-- Names looked up while executing the `ConfigManager` class statement, in
order: the annotation expressions of each method signature (parameter
annotations, defaults, return annotation), method by method.  The `validate`
method contributes `List` (from `-> List[str]`) then `str`. -/
def configManagerBodyNames : List String :=
  ["Optional", "str",
   "str",
   "str", "str",
   "Dict", "str", "Any",
   "str", "Any", "Any",
   "str", "Any",
   "Dict", "str", "Any",
   "str",
   "List", "str",
   "str", "Dict", "str", "Any",
   "str", "Dict", "str", "Any",
   "str",
   "Dict", "str", "Any",
   "Optional", "callable",
   "ScraperConfig"]

/-- The first name of `names` that is not bound in `bound`: the name whose
lookup raises `NameError`, if any. -/
def firstUnresolvedName (bound : List String) (names : List String) : Option String :=
  names.find? (fun n => !(bound.contains n))

/-- Outcome of importing the module: success, or a `NameError` naming the
unresolved identifier. -/
inductive ModuleImport where
  | ok
  | nameError (name : String)
  deriving DecidableEq, Repr

/-- Importing `settings.py`: run the `ScraperConfig` class statement, then
(with `ScraperConfig` now bound at module scope) the `ConfigManager` class
statement; the first unresolved name aborts the import with `NameError`. -/
def loadSettingsModule : ModuleImport :=
  let bound := builtinNames ++ namesFromImports
  match firstUnresolvedName bound scraperConfigBodyNames with
  | some n => ModuleImport.nameError n
  | Option.none =>
      match firstUnresolvedName (bound ++ ["ScraperConfig"]) configManagerBodyNames with
      | some n => ModuleImport.nameError n
      | Option.none => ModuleImport.ok

/-!
The filesystem and environment of the spec's precedence scenario (claim C2):
the configuration file supplies `requests_per_second=2` and the environment
supplies `SCRAPER_REQUESTS_PER_SECOND=5`.
-/

/-- A filesystem holding a config file that sets `requests_per_second: 2`. -/
def c2FileSystem : FileSystem := [("config.yaml", "requests_per_second: 2")]

/-- An environment holding the override `SCRAPER_REQUESTS_PER_SECOND=5`. -/
def c2Env : Env := [("SCRAPER_REQUESTS_PER_SECOND", "5")]

/-- C1: the claim's factual content holds: `List` is not among the names
imported from `typing`; executing the `ScraperConfig` class statement resolves
every name; but importing the module raises `NameError` at the name `List`
(the return annotation `List[str]` of `ConfigManager.validate`), so the
`class ConfigManager` statement — and with it the module import — fails, and
importing the module does not succeed. -/
theorem C1_import_raises_NameError_on_List :
    typingImportedNames.contains "List" = false ∧
    firstUnresolvedName (builtinNames ++ namesFromImports) scraperConfigBodyNames
      = Option.none ∧
    loadSettingsModule = ModuleImport.nameError "List" ∧
    loadSettingsModule ≠ ModuleImport.ok :=
  ⟨rfl, rfl, rfl, by decide⟩

/-- C2: refutes the claimed precedence on the code: with the file supplying
`requests_per_second=2` and the environment supplying
`SCRAPER_REQUESTS_PER_SECOND=5`, the value of `requests_per_second` after
construction is the schema default `1.0`, not `5` — `load_from_file` and
`_apply_environment_overrides` are stubs that never touch the config. -/
theorem C2_env_override_never_applied :
    (ConfigManager.init c2FileSystem c2Env (some "config.yaml")).config.requests_per_second
      = 1 ∧
    ¬ (ConfigManager.init c2FileSystem c2Env (some "config.yaml")).config.requests_per_second
      = 5 := by
  have h1 : (ConfigManager.init c2FileSystem c2Env
      (some "config.yaml")).config.requests_per_second = 1 := rfl
  exact ⟨h1, by rw [h1]; norm_num⟩

/-- C3: refutes the claim on the code: after a pure-defaults construction the
underlying `ScraperConfig` does hold the declared defaults (`request_timeout`
is `30`, `output_format` is `"json"`), but `get` is a stub returning `None`,
so `get("request_timeout")` does not return `30` and `get("output_format")`
does not return `"json"`. -/
theorem C3_get_returns_none_not_defaults :
    (ConfigManager.init [] [] Option.none).config.request_timeout = 30 ∧
    (ConfigManager.init [] [] Option.none).config.output_format = "json" ∧
    ConfigManager.get (ConfigManager.init [] [] Option.none) "request_timeout"
      PyVal.none = PyVal.none ∧
    ¬ ConfigManager.get (ConfigManager.init [] [] Option.none) "request_timeout"
      PyVal.none = PyVal.int 30 ∧
    ¬ ConfigManager.get (ConfigManager.init [] [] Option.none) "output_format"
      PyVal.none = PyVal.str "json" :=
  ⟨rfl, rfl, rfl, by simp [ConfigManager.get], by simp [ConfigManager.get]⟩

/-- C4: on the batch `update({"request_timeout": -1, "output_format":
"bogus"})` the code leaves the snapshot unchanged — but only because `update`
is a stub: it returns `None` and reports no violations at all, not the two
(`OutOfRange`, `InvalidEnum`) the claim requires. -/
theorem C4_update_reports_no_violations (s : ConfigManager) :
    ConfigManager.update s
      [("request_timeout", PyVal.int (-1)), ("output_format", PyVal.str "bogus")]
      = (s, PyVal.none) :=
  rfl

/-- C5: refutes the claimed `get` contract on the code: for a missing key with
a supplied default the call returns `None`, not the supplied default `42`; and
for an existing key it also returns `None` rather than the resolved value or a
`KeyNotFound` signal — the stub body ignores key, state and default alike. -/
theorem C5_get_ignores_supplied_default (s : ConfigManager) :
    ConfigManager.get s "no_such_key" (PyVal.int 42) = PyVal.none ∧
    ¬ ConfigManager.get s "no_such_key" (PyVal.int 42) = PyVal.int 42 ∧
    ConfigManager.get s "max_retries" PyVal.none = PyVal.none :=
  ⟨rfl, by simp [ConfigManager.get], rfl⟩

/-- C6: `reload` is idempotent when sources are unchanged: for any manager
state, filesystem and environment, reloading twice yields the same state and
in particular bit-identical config snapshots (trivially so: the stub `reload`
never changes the state). -/
theorem C6_reload_idempotent (fs : FileSystem) (env : Env) (s : ConfigManager) :
    (ConfigManager.reload fs env (ConfigManager.reload fs env s).1).1
      = (ConfigManager.reload fs env s).1 ∧
    ((ConfigManager.reload fs env (ConfigManager.reload fs env s).1).1).config
      = ((ConfigManager.reload fs env s).1).config :=
  ⟨rfl, rfl⟩

/-- C7: `save_to_file` followed by `load_from_file` on the same path leaves
the resolved configuration equal to the original (hence equal in particular up
to excluded secret fields): both bodies are stubs, `save_to_file` writes
nothing to the filesystem and `load_from_file` changes nothing. -/
theorem C7_save_then_load_round_trip (fs : FileSystem) (s : ConfigManager)
    (path fmt : String) :
    ((ConfigManager.load_from_file
        (ConfigManager.save_to_file fs s path fmt).1
        (ConfigManager.save_to_file fs s path fmt).2.1
        path).1).config = s.config :=
  rfl

/-- C8: refutes the claim on the code: `set("rate_limit.requests_per_second",
3)` does leave sibling `concurrent_requests` (and the whole config) unchanged,
but it also fails to change the addressed leaf: on a fresh manager the leaf
stays at its default `1.0` instead of becoming `3` — `set` is a stub. -/
theorem C8_set_changes_nothing_not_even_the_leaf (s : ConfigManager) :
    ((ConfigManager.set s "rate_limit.requests_per_second"
        (PyVal.int 3)).1).config.concurrent_requests
      = s.config.concurrent_requests ∧
    ((ConfigManager.set s "rate_limit.requests_per_second"
        (PyVal.int 3)).1).config = s.config ∧
    ¬ ((ConfigManager.set (ConfigManager.init [] [] Option.none)
        "rate_limit.requests_per_second" (PyVal.int 3)).1).config.requests_per_second
      = 3 := by
  refine ⟨rfl, rfl, ?_⟩
  have h1 : ((ConfigManager.set (ConfigManager.init [] [] Option.none)
      "rate_limit.requests_per_second" (PyVal.int 3)).1).config.requests_per_second
      = 1 := rfl
  rw [h1]; norm_num

/-- C9: a missing configuration file is not an error: when `os.path.exists`
is false for the given path, construction skips the file branch, so the
result is exactly the defaults with only the remaining source (the
environment-override step) applied — the config equals the all-defaults
`ScraperConfig` — and the file reader itself treats the missing file as
contributing nothing. -/
theorem C9_missing_file_yields_defaults (fs : FileSystem) (env : Env)
    (p : String) (h : os_path_exists fs p = false) :
    ConfigManager.init fs env (some p)
      = (ConfigManager.apply_environment_overrides
          { config_file := some p, config := {}, env_prefix := "SCRAPER_",
            config_cache := [] } env).1 ∧
    (ConfigManager.init fs env (some p)).config = ({} : ScraperConfig) ∧
    (ConfigManager.load_from_file fs (ConfigManager.init fs env (some p)) p).1
      = ConfigManager.init fs env (some p) := by
  have hcond : ((p != "") && os_path_exists fs p) = false := by
    rw [h, Bool.and_false]
  refine ⟨?_, ?_, rfl⟩ <;>
    simp [ConfigManager.init, hcond, ConfigManager.apply_environment_overrides,
      ConfigManager.load_from_file]

/-- Witness for C9 at a concrete input: the path `missing.yaml` does not exist
in the empty filesystem, and construction there yields the all-defaults
config. -/
theorem C9_missing_file_yields_defaults_witness :
    os_path_exists [] "missing.yaml" = false ∧
    (ConfigManager.init [] [] (some "missing.yaml")).config = ({} : ScraperConfig) :=
  ⟨rfl, (C9_missing_file_yields_defaults [] [] "missing.yaml" rfl).2.1⟩

/-- C10: the constructor always publishes the all-defaults `ScraperConfig`,
and every stubbed operation returns `None` and leaves the manager state —
`config`, `config_file`, `_config_cache` — unchanged, for every state and
every argument. -/
theorem C10_stub_bodies_never_mutate (fs : FileSystem) (env : Env)
    (cf : Option String) (s : ConfigManager) (fp k pn : String)
    (v : PyVal) (d u : List (String × PyVal)) :
    (ConfigManager.init fs env cf).config = ({} : ScraperConfig) ∧
    (ConfigManager.init fs env cf).config_file = cf ∧
    (ConfigManager.init fs env cf).config_cache = [] ∧
    ConfigManager.load_from_file fs s fp = (s, PyVal.none) ∧
    ConfigManager.load_from_dict s d = (s, PyVal.none) ∧
    ConfigManager.set s k v = (s, PyVal.none) ∧
    ConfigManager.update s u = (s, PyVal.none) ∧
    ConfigManager.reload fs env s = (s, PyVal.none) ∧
    ConfigManager.switch_profile s pn = (s, PyVal.none) ∧
    ConfigManager.apply_environment_overrides s env = (s, PyVal.none) := by
  refine ⟨?_, ?_, ?_, rfl, rfl, rfl, rfl, rfl, rfl, rfl⟩ <;>
  · cases cf with
    | none => rfl
    | some f =>
        simp only [ConfigManager.init, ConfigManager.load_from_file,
          ConfigManager.apply_environment_overrides]
        split <;> rfl
